import Mathlib

/-!
Verification of `src/download.py` from the `yt-vid-downloader` repository.

The development shallowly embeds the retry/error-classification engine
(`ffmpeg`), the three-stage segment acquisition (`download_yt_video`) and the
job scheduler (`download_subset_videos`).

Modelling conventions:

* Python argument-vector elements are `Tok`: a Python string literal that is
  not the decimal rendering of a number is `Tok.str`, and a Python value of
  the form `str(x)` for a numeric `x` (or a numeric literal such as `"0"`)
  is `Tok.num` with the value as a rational.  Under this convention Python's
  `float(tok)` succeeds exactly on `Tok.num` tokens, as in the source, where
  only the numeric tokens of the argument lists are ever passed to `float`.
* The external tool (`run_command` from the repository's `utils` module, not
  under `src/`) is a black box: an environment `ℕ → AttemptResult` gives, for
  each attempt index, whether the subprocess raised `SubprocessError` (with
  its captured stderr) and whether it left an output file at the output path.
* The filesystem is modelled only through the existence of the relevant
  output files, which is all the source reads (`os.path.exists`) or writes
  (`os.remove`, plus the writes performed by the external tool).
* Logging and side effects are recorded as an ordered event trace.
-/

/-- One element of a Python argument vector (see the convention above). -/
inductive Tok where
  | str (s : String)
  | num (q : ℚ)
deriving DecidableEq, Repr

/-- Python exceptions that can escape the modelled code. -/
inductive PyExn where
  | valueError
  | indexError
  | typeError
deriving DecidableEq, Repr

/-- The exceptions caught by the retry loop of `ffmpeg`
(`SubprocessError`, `FfmpegIncorrectDurationError`, `FfmpegValidationError`
from the repository's `errors` module, modelled by the data the loop reads
from them: the captured stderr, resp. the target/actual durations). -/
inductive FfErr where
  | subprocess (stderr : String)
  | incorrectDuration (target actual : ℚ)
  | validation (msg : String)
deriving DecidableEq, Repr

/-- Result of one `run_command` call on the external tool: either it returned
normally, or it raised `SubprocessError` carrying the captured stderr.  In
both cases `wrote` tells whether the attempt left a (possibly partial) file
at the output path. -/
inductive AttemptResult where
  | ok (wrote : Bool)
  | fail (stderr : String) (wrote : Bool)
deriving DecidableEq, Repr

/-- Result of invoking the validation callback on the produced output:
it returns normally, raises `FfmpegIncorrectDurationError` (carrying target
and actual duration), or raises `FfmpegValidationError`. -/
inductive VOutcome where
  | pass
  | incorrectDuration (target actual : ℚ)
  | invalid (msg : String)
deriving DecidableEq, Repr

/-- Observable events of one `ffmpeg` call, in program order. -/
inductive Ev where
  /-- Event for `run_command(args)`: one external-tool invocation with its
  full argument vector. -/
  | invoke (args : List Tok)
  /-- Event for the info log saying the ffmpeg output file already
  exists (line 223). -/
  | logInfoAlreadyExists
  /-- Event for the error log `LOGGER.error(str(e) + ...)` before an
  other-subprocess-failure retry (line 230). -/
  | logErrorRetrying
  /-- Event for `os.remove(output_path)`. -/
  | removeOutput
  /-- Event for the warning log before a duration-adjusted retry
  (line 250). -/
  | logWarnDurationRetrying
  /-- Event for the info log saying the output did not validate
  (line 258). -/
  | logInfoValidationRetrying
  /-- Event for the maximum-number-of-retries-reached error log: the
  `else` clause of the `for` loop, carrying `num_retries` and `last_err`
  (lines 261–263). -/
  | logErrorMaxRetries (num_retries : ℕ) (last_err : Option FfErr)
deriving DecidableEq, Repr

/-- Mutable state of the retry loop of `ffmpeg`: the two argument lists
(whose `-t` value may be rewritten between attempts), the existence of the
output file, `last_err`, and the event trace so far. -/
structure FfState where
  inArgs : List Tok
  outArgs : List Tok
  fileEx : Bool
  lastErr : Option FfErr
  evs : List Ev
deriving DecidableEq, Repr

/-- Result of one `ffmpeg` call.  The Python function returns `None`;
`raised = none` means it returned normally, `raised = some e` that the
uncaught exception `e` propagated to the caller. -/
structure FfOut where
  evs : List Ev
  fileEx : Bool
  inArgs : List Tok
  outArgs : List Tok
  raised : Option PyExn
deriving DecidableEq, Repr

/-- The `input_path` parameter of `ffmpeg`: a single string or an iterable
of strings (the source raises `ValueError` on any other type, which the
typed embedding makes unrepresentable). -/
inductive InputPath where
  | single (p : String)
  | multi (ps : List String)
deriving DecidableEq, Repr

/-- Expansion of `input_path` into repeated `-i path` pairs
(lines 191–197 of `src/download.py`). -/
def expandInputs : InputPath → List Tok
  | InputPath.single p => [Tok.str "-i", Tok.str p]
  | InputPath.multi ps => (ps.map fun p => [Tok.str "-i", Tok.str p]).flatten

/-- The full argument vector of one attempt
(`[ffmpeg_path] + input_args + inputs + output_args` followed by the
output path, the loglevel flag and the log level, line 210). -/
def ffmpegArgv (ffmpeg_path : String) (inArgs inputs outArgs : List Tok)
    (output_path log_level : String) : List Tok :=
  Tok.str ffmpeg_path :: inArgs ++ inputs ++ outArgs ++
    [Tok.str output_path, Tok.str "-loglevel", Tok.str log_level]

/-- Python `float(tok)`: succeeds exactly on numeric tokens
(see the `Tok` convention). -/
def pyFloat : Tok → Option ℚ
  | Tok.num q => some q
  | Tok.str _ => none

/-- Python `str.rstrip()` (as applied to the captured stderr, line 221):
remove trailing whitespace. -/
def pyRstrip (s : String) : String :=
  ⟨(s.data.reverse.dropWhile Char.isWhitespace).reverse⟩

/-- Python `str.endswith(suffix)` (line 222). -/
def pyEndsWith (s suffix : String) : Bool :=
  List.isPrefixOf suffix.data.reverse s.data.reverse

/-- Python `list.index(x)`: index of the first occurrence, `none` when the
element is absent (where the Python method raises `ValueError`). -/
def listIndex (x : Tok) : List Tok → Option ℕ
  | [] => none
  | a :: as => if a = x then some 0 else (listIndex x as).map (· + 1)

/-- One arm of the `-t` rewrite (lines 242–244 resp. 246–248):
`duration_idx = args.index("-t") + 1;
 args[duration_idx] = str(float(args[duration_idx]) + duration_diff)`.
Python `list.index` raises `ValueError` when `-t` is absent, reading
`args[duration_idx]` raises `IndexError` when `-t` is the last token, and
`float` raises `ValueError` on a non-numeric token. -/
def adjustDurationArg (args : List Tok) (diff : ℚ) : Except PyExn (List Tok) :=
  match listIndex (Tok.str "-t") args with
  | none => Except.error PyExn.valueError
  | some i =>
    match args.get? (i + 1) with
    | none => Except.error PyExn.indexError
    | some t =>
      match pyFloat t with
      | none => Except.error PyExn.valueError
      | some q => Except.ok (args.set (i + 1) (Tok.num (q + diff)))

/-- The `try/except ValueError` around the `-t` rewrite (lines 241–248):
the rewrite is attempted on `input_args` first; on `ValueError` it is
attempted on `output_args`; an `IndexError`, or a failure of the second
attempt, propagates. -/
def rewriteDurationArgs (inArgs outArgs : List Tok) (diff : ℚ) :
    Except PyExn (List Tok × List Tok) :=
  match adjustDurationArg inArgs diff with
  | Except.ok inArgs' => Except.ok (inArgs', outArgs)
  | Except.error PyExn.valueError =>
    (adjustDurationArg outArgs diff).map fun outArgs' => (inArgs, outArgs')
  | Except.error e => Except.error e

/-- The parameters of one `ffmpeg` call that are fixed across the retry
loop, together with the environment: the HTTP 4xx/5xx stderr pattern test
(`HTTP_ERR_PATTERN.match`, from the repository's `utils` module, not under
`src/`; the spec says only that stderr may match "an HTTP 4xx/5xx error
pattern", so the test is kept as an abstract predicate), the per-attempt
external-tool behaviour, and the per-attempt validation-callback behaviour
(`none` models `validation_callback=None`). -/
structure FfParams where
  httpMatch : String → Bool
  env : ℕ → AttemptResult
  validation_callback : Option (ℕ → VOutcome)
  ffmpeg_path : String
  inputs : List Tok
  output_path : String
  log_level : String
  num_retries : ℕ

/-- Package the loop state as the function's result. -/
def FfState.toOut (st : FfState) (raised : Option PyExn) : FfOut :=
  { evs := st.evs, fileEx := st.fileEx, inArgs := st.inArgs,
    outArgs := st.outArgs, raised := raised }

/-- Result of one iteration of the retry loop: `done` models `break` (or an
uncaught exception), `next` models `continue` / falling off the end of the
loop body. -/
inductive FfRes where
  | done (o : FfOut)
  | next (st : FfState)
deriving DecidableEq, Repr

/-- One iteration of the retry loop of `ffmpeg` (lines 209–260 of
`src/download.py`), at a given `attempt` index. -/
def ffmpegStep (P : FfParams) (attempt : ℕ) (st : FfState) : FfRes :=
  let args := ffmpegArgv P.ffmpeg_path st.inArgs P.inputs st.outArgs
    P.output_path P.log_level
  let st := { st with evs := st.evs ++ [Ev.invoke args] }
  match P.env attempt with
  | AttemptResult.ok wrote =>
    let st := { st with fileEx := st.fileEx || wrote }
    match P.validation_callback with
    | none => FfRes.done (st.toOut none)
    | some v =>
      match v attempt with
      | VOutcome.pass => FfRes.done (st.toOut none)
      | VOutcome.incorrectDuration target actual =>
        -- `except FfmpegIncorrectDurationError` (lines 234–251)
        let st := { st with
          lastErr := some (FfErr.incorrectDuration target actual) }
        let st := if attempt < P.num_retries - 1 ∧ st.fileEx then
            { st with evs := st.evs ++ [Ev.removeOutput], fileEx := false }
          else st
        let duration_diff := target - actual
        match rewriteDurationArgs st.inArgs st.outArgs duration_diff with
        | Except.error e => FfRes.done (st.toOut (some e))
        | Except.ok (ia, oa) =>
          FfRes.next
            { st with
              inArgs := ia
              outArgs := oa
              evs := st.evs ++ [Ev.logWarnDurationRetrying] }
      | VOutcome.invalid msg =>
        -- `except FfmpegValidationError` (lines 253–260)
        let st := { st with lastErr := some (FfErr.validation msg) }
        let st := if attempt < P.num_retries - 1 ∧ st.fileEx then
            { st with evs := st.evs ++ [Ev.removeOutput], fileEx := false }
          else st
        FfRes.next { st with evs := st.evs ++ [Ev.logInfoValidationRetrying] }
  | AttemptResult.fail stderr wrote =>
    -- `except SubprocessError` (lines 219–232)
    let st :=
      { st with
        fileEx := st.fileEx || wrote
        lastErr := some (FfErr.subprocess stderr) }
    let s := pyRstrip stderr
    if pyEndsWith s "already exists. Exiting." then
      FfRes.done { (st.toOut none) with
        evs := st.evs ++ [Ev.logInfoAlreadyExists] }
    else if P.httpMatch s then
      FfRes.next st
    else
      let st := { st with evs := st.evs ++ [Ev.logErrorRetrying] }
      let st := if st.fileEx then
          { st with evs := st.evs ++ [Ev.removeOutput], fileEx := false }
        else st
      FfRes.next st

/-- The retry loop `for attempt in range(num_retries): ... else: ...`
(lines 208–263), with `fuel = num_retries - attempt` as the structural
recursion measure; the `fuel = 0` case is the `else` clause of the loop. -/
def ffmpegGo (P : FfParams) : ℕ → ℕ → FfState → FfOut
  | 0, _, st =>
    { evs := st.evs ++ [Ev.logErrorMaxRetries P.num_retries st.lastErr],
      fileEx := st.fileEx, inArgs := st.inArgs, outArgs := st.outArgs,
      raised := none }
  | fuel + 1, attempt, st =>
    match ffmpegStep P attempt st with
    | FfRes.done o => o
    | FfRes.next st' => ffmpegGo P fuel (attempt + 1) st'

/-- The `ffmpeg` function (lines 187–263 of `src/download.py`).
`outputExists` is the existence of `output_path` when the call starts. -/
def ffmpeg (httpMatch : String → Bool) (env : ℕ → AttemptResult)
    (ffmpeg_path : String) (input_path : InputPath) (output_path : String)
    (input_args output_args : List Tok) (log_level : String)
    (num_retries : ℕ) (validation_callback : Option (ℕ → VOutcome))
    (outputExists : Bool) : FfOut :=
  ffmpegGo
    { httpMatch := httpMatch, env := env,
      validation_callback := validation_callback,
      ffmpeg_path := ffmpeg_path, inputs := expandInputs input_path,
      output_path := output_path, log_level := log_level,
      num_retries := num_retries }
    num_retries 0
    { inArgs := input_args, outArgs := output_args, fileEx := outputExists,
      lastErr := none, evs := [] }

/-- The argument vectors of the external-tool invocations in a trace,
in order. -/
def invokes (evs : List Ev) : List (List Tok) :=
  evs.filterMap fun e =>
    match e with
    | Ev.invoke a => some a
    | _ => none

/-- The millisecond key of an offset, `int(ts * 1000)` in Python: the floor
`⌊1000·ts⌋`, computed on the numerator and denominator (offsets in this
program are non-negative, where flooring agrees with Python's truncating
`int`). -/
def msKey (q : ℚ) : ℤ := (q.num * 1000).fdiv (q.den : ℤ)


/-- Modelled from the spec: `get_media_filename` lives in the repository's
`utils` module, which is not under `src/`.  Per the spec (§6) and the source
comment (lines 277–278), the name is
`<YouTube ID>_<start time in ms>_<end time in ms>`. -/
def get_media_filename (ytid : String) (ts_start ts_end : ℚ) : String :=
  ytid ++ "_" ++ toString (msKey ts_start) ++ "_" ++ toString (msKey ts_end)

/-- Python `os.path.join` on the relative path pieces this program
uses. -/
def pathJoin (a b : String) : String := a ++ "/" ++ b

/-- The muxed output path: `output_dir/video_audio/` followed by the media
filename and the video format extension (lines 280–281). -/
def videowithaudio_filepath (output_dir ytid : String) (ts_start ts_end : ℚ)
    (video_format : String) : String :=
  pathJoin (pathJoin output_dir "video_audio")
    (get_media_filename ytid ts_start ts_end ++ "." ++ video_format)

/-- The video output path, under `output_dir/video/` (lines 282–283). -/
def video_filepath (output_dir ytid : String) (ts_start ts_end : ℚ)
    (video_format : String) : String :=
  pathJoin (pathJoin output_dir "video")
    (get_media_filename ytid ts_start ts_end ++ "." ++ video_format)

/-- The audio output path, under `output_dir/audio/` (lines 284–285). -/
def audio_filepath (output_dir ytid : String) (ts_start ts_end : ℚ)
    (audio_format : String) : String :=
  pathJoin (pathJoin output_dir "audio")
    (get_media_filename ytid ts_start ts_end ++ "." ++ audio_format)

/-- The keyword configuration of `download_yt_video` (lines 267–271). -/
structure YtCfg where
  audio_codec : String
  audio_format : String
  audio_sample_rate : ℕ
  audio_bit_depth : ℕ
  video_codec : String
  video_format : String
  video_mode : String
  video_frame_rate : ℕ
  num_retries : ℕ
deriving DecidableEq, Repr

/-- The default keyword arguments of `download_yt_video`. -/
def YtCfg.dflt : YtCfg :=
  { audio_codec := "flac", audio_format := "flac", audio_sample_rate := 48000,
    audio_bit_depth := 16, video_codec := "h264", video_format := "mp4",
    video_mode := "bestvideo", video_frame_rate := 30, num_retries := 10 }

/-- The audio input args `-n -ss str(ts_start)` (line 319). -/
def audio_input_args (ts_start : ℚ) : List Tok :=
  [Tok.str "-n", Tok.str "-ss", Tok.num ts_start]

/-- The audio output args (lines 320–326); `duration = 10` and the
channel count is fixed at 2. -/
def audio_output_args (cfg : YtCfg) : List Tok :=
  [Tok.str "-t", Tok.num 10,
   Tok.str "-ar", Tok.num (cfg.audio_sample_rate : ℚ),
   Tok.str "-vn",
   Tok.str "-ac", Tok.num 2,
   Tok.str "-sample_fmt", Tok.str ("s" ++ toString cfg.audio_bit_depth),
   Tok.str "-f", Tok.str cfg.audio_format,
   Tok.str "-acodec", Tok.str cfg.audio_codec]

/-- The video input args `-n -ss str(ts_start)` (line 337). -/
def video_input_args (ts_start : ℚ) : List Tok :=
  [Tok.str "-n", Tok.str "-ss", Tok.num ts_start]

/-- The video output args (lines 338–344). -/
def video_output_args (cfg : YtCfg) : List Tok :=
  [Tok.str "-t", Tok.num 10,
   Tok.str "-f", Tok.str cfg.video_format,
   Tok.str "-crf", Tok.num 0,
   Tok.str "-preset", Tok.str "medium",
   Tok.str "-r", Tok.num (cfg.video_frame_rate : ℚ),
   Tok.str "-an",
   Tok.str "-vcodec", Tok.str cfg.video_codec]

/-- The input args of the mux call, just `-n` (line 352; the source reuses
the name `video_input_args`). -/
def mux_input_args : List Tok := [Tok.str "-n"]

/-- The output args of the mux call (lines 353–359; the source reuses the
name `video_output_args`). -/
def mux_output_args (cfg : YtCfg) : List Tok :=
  [Tok.str "-f", Tok.str cfg.video_format,
   Tok.str "-r", Tok.num (cfg.video_frame_rate : ℚ),
   Tok.str "-vcodec", Tok.str cfg.video_codec,
   Tok.str "-acodec", Tok.str "aac",
   Tok.str "-ar", Tok.num (cfg.audio_sample_rate : ℚ),
   Tok.str "-ac", Tok.num 2,
   Tok.str "-strict", Tok.str "experimental"]

/-- Environment of one `download_yt_video` call: the HTTP stderr pattern
test, the external-tool behaviour of each of the three `ffmpeg` calls, the
result of the `Video.getFormats(ytid)` URL resolution (`none` models the
external lookup raising), and the initial filesystem. -/
structure YtEnv where
  httpMatch : String → Bool
  audioEnv : ℕ → AttemptResult
  videoEnv : ℕ → AttemptResult
  muxEnv : ℕ → AttemptResult
  resolvedUrl : Option String
  fs : String → Bool

/-- Observable events of one `download_yt_video` call, in program order. -/
inductive DEv where
  /-- Event for `os.remove(path)` of a pre-existing output file
  (lines 288–295). -/
  | remove (path : String)
  /-- Event for `print(ytid)` on a malformed identifier (line 298). -/
  | printId (ytid : String)
  /-- Event for the `Video.getFormats(ytid)` external lookup
  (line 301). -/
  | getFormats (ytid : String)
  /-- Embedded event of the `ffmpeg` call writing to `output_path`. -/
  | ff (output_path : String) (e : Ev)
  /-- Event for the downloaded-video info log (line 365). -/
  | logDownloaded (ytid : String)
deriving DecidableEq, Repr

/-- Exceptions that can escape `download_yt_video`. -/
inductive YtRaised where
  | notImplementedError (codec : String)
  | mediaResolutionError
  | pyExn (e : PyExn)
deriving DecidableEq, Repr

/-- Result of one `download_yt_video` call: the trace, the escaped
exception (if any), and the returned pair — `some (none, none)` for the
malformed-identifier return `None, None` (line 299), `some (some v, some a)`
for the normal return (line 367), `none` when an exception escaped. -/
structure DOut where
  evs : List DEv
  raised : Option YtRaised
  ret : Option (Option String × Option String)
deriving DecidableEq, Repr

/-- The unconditional pre-invocation cleanup (lines 288–295): each of the
three output files is removed when it exists. -/
def cleanupEvs (fs : String → Bool) (vaPath vPath aPath : String) :
    List DEv :=
  (if fs vaPath then [DEv.remove vaPath] else []) ++
  (if fs vPath then [DEv.remove vPath] else []) ++
  (if fs aPath then [DEv.remove aPath] else [])

/-- The `download_yt_video` function (lines 266–367 of `src/download.py`).
All three `ffmpeg` calls pass `validation_callback=None`, and each starts
with its output file absent (it was removed by the cleanup above when it
pre-existed, and no earlier call writes it). -/
def download_yt_video (E : YtEnv) (ytid : String) (ts_start ts_end : ℚ)
    (output_dir ffmpeg_path ffprobe_path : String) (cfg : YtCfg) : DOut :=
  let vaPath := videowithaudio_filepath output_dir ytid ts_start ts_end
    cfg.video_format
  let vPath := video_filepath output_dir ytid ts_start ts_end cfg.video_format
  let aPath := audio_filepath output_dir ytid ts_start ts_end cfg.audio_format
  let cleanup := cleanupEvs E.fs vaPath vPath aPath
  if ytid.length ≠ 11 then
    { evs := cleanup ++ [DEv.printId ytid], raised := none,
      ret := some (none, none) }
  else
    match E.resolvedUrl with
    | none =>
      { evs := cleanup ++ [DEv.getFormats ytid],
        raised := some YtRaised.mediaResolutionError, ret := none }
    | some url =>
      let aOut := ffmpeg E.httpMatch E.audioEnv ffmpeg_path
        (InputPath.single url) aPath (audio_input_args ts_start)
        (audio_output_args cfg) "error" cfg.num_retries none false
      let evs1 := cleanup ++ [DEv.getFormats ytid] ++
        aOut.evs.map (DEv.ff aPath)
      match aOut.raised with
      | some e =>
        { evs := evs1, raised := some (YtRaised.pyExn e), ret := none }
      | none =>
        if cfg.video_codec ≠ "h264" then
          { evs := evs1,
            raised := some (YtRaised.notImplementedError cfg.video_codec),
            ret := none }
        else
          let vOut := ffmpeg E.httpMatch E.videoEnv ffmpeg_path
            (InputPath.single url) vPath (video_input_args ts_start)
            (video_output_args cfg) "error" cfg.num_retries none false
          let evs2 := evs1 ++ vOut.evs.map (DEv.ff vPath)
          match vOut.raised with
          | some e =>
            { evs := evs2, raised := some (YtRaised.pyExn e), ret := none }
          | none =>
            let mOut := ffmpeg E.httpMatch E.muxEnv ffmpeg_path
              (InputPath.multi [vPath, aPath]) vaPath mux_input_args
              (mux_output_args cfg) "error" cfg.num_retries none false
            let evs3 := evs2 ++ mOut.evs.map (DEv.ff vaPath)
            match mOut.raised with
            | some e =>
              { evs := evs3, raised := some (YtRaised.pyExn e), ret := none }
            | none =>
              { evs := evs3 ++ [DEv.logDownloaded ytid], raised := none,
                ret := some (some vPath, some aPath) }

/-- Whether a `download_yt_video` event is an external-tool invocation. -/
def DEv.isInvoke : DEv → Bool
  | DEv.ff _ (Ev.invoke _) => true
  | _ => false

/-- Number of external-tool invocations in a `download_yt_video` trace. -/
def invocationCount (evs : List DEv) : ℕ := (evs.filter DEv.isInvoke).length

/-- Modelled from the spec: `get_subset_name` lives in the repository's
`utils` module, which is not under `src/`; it only feeds the start/finish
log text, so it is modelled as the identity on the path. -/
def get_subset_name (subset_path : String) : String := subset_path

/-- Observable events of one `download_subset_videos` call. -/
inductive SEv where
  | logStartingJobs (subset_name : String)
  | poolCreated (num_workers : ℕ)
  | submit (ytid : String) (ts_start ts_end : ℚ)
  | logSkip (ytid : String) (ts_start ts_end : ℚ)
  | poolClosed
  | poolJoined
  | logFinishedJobs (subset_name : String)
deriving DecidableEq, Repr

/-- Result of one `download_subset_videos` call. -/
structure SchedOut where
  evs : List SEv
  raised : Option PyExn
deriving DecidableEq, Repr

/-- The start offset the loop body of `download_subset_videos` computes from
a row (lines 405–406):
`ts_start = float(int(row[1]) * 3600 + int(row[2]) * 60 + int(row[3]))`. -/
def row_ts_start (h m s : ℤ) : ℚ := ((h * 3600 + m * 60 + s : ℤ) : ℚ)

/-- The end offset `ts_end = ts_start + float(10)` (line 407). -/
def row_ts_end (ts_start : ℚ) : ℚ := ts_start + 10

/-- The resumability test of the loop body (line 418): all three expected
output files already exist. -/
def allOutputsExist (fs : String → Bool) (data_dir ytid : String)
    (ts_start ts_end : ℚ) (cfg : YtCfg) : Bool :=
  fs (video_filepath data_dir ytid ts_start ts_end cfg.video_format) &&
  fs (audio_filepath data_dir ytid ts_start ts_end cfg.audio_format) &&
  fs (videowithaudio_filepath data_dir ytid ts_start ts_end cfg.video_format)

/-- The `download_subset_videos` function (lines 390–445 of
`src/download.py`).

`subset_data = csv.reader(f)` (line 397) binds a `_csv.reader` iterator; the
loop header `for row_idx, row in enumerate(subset_data[1:])` (line 402)
slices that iterator, and `_csv.reader` does not implement `__getitem__`, so
this raises `TypeError` before any row is read.  The `TypeError` is caught
neither by `except csv.Error` nor by `except KeyboardInterrupt`; the
`finally` block closes and joins the pool, and the exception propagates to
the caller.  Hence the loop body (offset computation, resumability skip,
submission — `row_ts_start`, `row_ts_end`, `allOutputsExist` above) is
unreachable, and the call performs the start log and pool setup/teardown
only.  `rows` is the parsed content of the file at `subset_path` and `fs`
the filesystem; neither is ever consulted. -/
def download_subset_videos (rows : List (List String)) (fs : String → Bool)
    (subset_path data_dir : String) (num_workers : ℕ) (cfg : YtCfg) :
    SchedOut :=
  { evs := [SEv.logStartingJobs (get_subset_name subset_path),
            SEv.poolCreated num_workers, SEv.poolClosed, SEv.poolJoined],
    raised := some PyExn.typeError }

/-- The event trace held by an iteration result. -/
def FfRes.evs : FfRes → List Ev
  | FfRes.done o => o.evs
  | FfRes.next st => st.evs

/-- A concrete HTTP 4xx/5xx pattern test for concrete runs: matches the
stderr text `HTTP error 503`. -/
def httpMatch503 : String → Bool := fun s => s == "HTTP error 503"

/-- An environment whose every attempt raises `SubprocessError` with an
HTTP 503 stderr and leaves no output file. -/
def envHttp503 : ℕ → AttemptResult :=
  fun _ => AttemptResult.fail "HTTP error 503" false

/-- As `envHttp503`, but every attempt leaves a partially written output
file behind. -/
def envHttp503w : ℕ → AttemptResult :=
  fun _ => AttemptResult.fail "HTTP error 503" true

/-- An environment whose every attempt succeeds and writes the output. -/
def envOkW : ℕ → AttemptResult := fun _ => AttemptResult.ok true

/-- An environment whose every attempt fails with an already-exists
stderr. -/
def envAlreadyExists : ℕ → AttemptResult :=
  fun _ => AttemptResult.fail "File out.wav already exists. Exiting." false

/-- A validation callback reporting a duration short by 0.5 on the first
attempt and by 0.2 on the second. -/
def vDur2 : ℕ → VOutcome := fun j =>
  if j = 0 then VOutcome.incorrectDuration 10 (19/2)
  else if j = 1 then VOutcome.incorrectDuration (21/2) (103/10)
  else VOutcome.pass

/-- Initial loop state of an `ffmpeg` call. -/
def initSt (ia oa : List Tok) (fx : Bool) : FfState :=
  { inArgs := ia, outArgs := oa, fileEx := fx, lastErr := none, evs := [] }

/-- Concrete loop parameters whose attempts all fail with an HTTP 503
stderr, leaving partial output. -/
def Phttp : FfParams :=
  { httpMatch := httpMatch503, env := envHttp503w,
    validation_callback := none, ffmpeg_path := "ffmpeg",
    inputs := [Tok.str "-i", Tok.str "u"], output_path := "o",
    log_level := "error", num_retries := 2 }

/-- Concrete loop parameters whose attempts all fail with an already-exists
stderr. -/
def Pae : FfParams :=
  { httpMatch := httpMatch503, env := envAlreadyExists,
    validation_callback := none, ffmpeg_path := "ffmpeg",
    inputs := [Tok.str "-i", Tok.str "u"], output_path := "out.wav",
    log_level := "error", num_retries := 2 }

/-- A concrete acquisition environment: resolution succeeds, every tool
attempt succeeds, and every file already exists beforehand. -/
def Eok : YtEnv :=
  { httpMatch := httpMatch503, audioEnv := envOkW, videoEnv := envOkW,
    muxEnv := envOkW, resolvedUrl := some "http://u", fs := fun _ => true }

/-- The default configuration with an unsupported video codec and a single
permitted attempt. -/
def cfgVp9 : YtCfg := { YtCfg.dflt with video_codec := "vp9", num_retries := 1 }

/-- A subset file: a header row followed by one well-formed data row. -/
def subsetRowsEx : List (List String) :=
  [["# Segments", "start-hour", "start-minute", "start-second"],
   ["abcdefghijk", "0", "1", "59"]]

/-- Rewriting `-t` when the token directly follows a leading `-t`. -/
lemma adjustDurationArg_head (q d : ℚ) (rest : List Tok) :
    adjustDurationArg (Tok.str "-t" :: Tok.num q :: rest) d
      = Except.ok (Tok.str "-t" :: Tok.num (q + d) :: rest) := by
  simp [adjustDurationArg, listIndex, pyFloat, List.set]

/-- The `-ss`-style input-args of this program contain no `-t` token, so
the first rewrite arm raises `ValueError`. -/
lemma adjustDurationArg_audio_in (ts d : ℚ) :
    adjustDurationArg [Tok.str "-n", Tok.str "-ss", Tok.num ts] d
      = Except.error PyExn.valueError := by
  simp [adjustDurationArg, listIndex]

/-- An attempt failing with an HTTP-pattern stderr (that does not carry the
already-exists marker) continues the loop, leaving the argument lists and
the output file untouched: the iteration emits only the invocation event. -/
lemma ffmpegStep_http (P : FfParams) (attempt : ℕ) (st : FfState)
    (stderr : String) (wrote : Bool)
    (henv : P.env attempt = AttemptResult.fail stderr wrote)
    (hae : pyEndsWith (pyRstrip stderr) "already exists. Exiting." = false)
    (hhttp : P.httpMatch (pyRstrip stderr) = true) :
    ffmpegStep P attempt st = FfRes.next
      { st with
        evs := st.evs ++ [Ev.invoke (ffmpegArgv P.ffmpeg_path st.inArgs
          P.inputs st.outArgs P.output_path P.log_level)]
        fileEx := st.fileEx || wrote
        lastErr := some (FfErr.subprocess stderr) } := by
  simp [ffmpegStep, henv, hae, hhttp]

/-- An attempt failing with the already-exists marker stops the loop at
once, with no deletion and no exception. -/
lemma ffmpegStep_already_exists (P : FfParams) (attempt : ℕ) (st : FfState)
    (stderr : String) (wrote : Bool)
    (henv : P.env attempt = AttemptResult.fail stderr wrote)
    (hae : pyEndsWith (pyRstrip stderr) "already exists. Exiting." = true) :
    ffmpegStep P attempt st = FfRes.done
      { evs := st.evs ++ [Ev.invoke (ffmpegArgv P.ffmpeg_path st.inArgs
          P.inputs st.outArgs P.output_path P.log_level),
          Ev.logInfoAlreadyExists],
        fileEx := st.fileEx || wrote, inArgs := st.inArgs,
        outArgs := st.outArgs, raised := none } := by
  simp [ffmpegStep, henv, hae, FfState.toOut]

/-- A duration-mismatch attempt whose `-t` rewrite succeeds continues the
loop with the rewritten argument lists; besides the invocation the iteration
emits only removal/log events. -/
lemma ffmpegStep_duration (P : FfParams) (attempt : ℕ) (st : FfState)
    (w : Bool) (v : ℕ → VOutcome) (t a : ℚ) (ia oa : List Tok)
    (henv : P.env attempt = AttemptResult.ok w)
    (hvcb : P.validation_callback = some v)
    (hv : v attempt = VOutcome.incorrectDuration t a)
    (hrw : rewriteDurationArgs st.inArgs st.outArgs (t - a)
      = Except.ok (ia, oa)) :
    ∃ st' : FfState, ffmpegStep P attempt st = FfRes.next st'
      ∧ st'.inArgs = ia ∧ st'.outArgs = oa
      ∧ ∃ r, st'.evs = st.evs ++ Ev.invoke (ffmpegArgv P.ffmpeg_path
          st.inArgs P.inputs st.outArgs P.output_path P.log_level) :: r
        ∧ invokes r = [] := by
  by_cases hc : attempt < P.num_retries - 1 ∧ (st.fileEx = true ∨ w = true)
  · refine ⟨FfState.mk ia oa false (some (FfErr.incorrectDuration t a))
      (st.evs ++ Ev.invoke (ffmpegArgv P.ffmpeg_path st.inArgs P.inputs
        st.outArgs P.output_path P.log_level) ::
        [Ev.removeOutput, Ev.logWarnDurationRetrying]),
      ?_, rfl, rfl, [Ev.removeOutput, Ev.logWarnDurationRetrying], rfl,
      by simp [invokes]⟩
    simp [ffmpegStep, henv, hvcb, hv, hc, hrw]
  · refine ⟨FfState.mk ia oa (st.fileEx || w)
      (some (FfErr.incorrectDuration t a))
      (st.evs ++ Ev.invoke (ffmpegArgv P.ffmpeg_path st.inArgs P.inputs
        st.outArgs P.output_path P.log_level) ::
        [Ev.logWarnDurationRetrying]),
      ?_, rfl, rfl, [Ev.logWarnDurationRetrying], rfl, by simp [invokes]⟩
    simp [ffmpegStep, henv, hvcb, hv, hc, hrw]

/-- Every iteration first emits the invocation event built from the current
argument lists; whatever then happens only appends further events. -/
lemma ffmpegStep_invoke_first (P : FfParams) (attempt : ℕ) (st : FfState) :
    ∃ r : List Ev,
      (ffmpegStep P attempt st).evs = st.evs ++ Ev.invoke (ffmpegArgv
        P.ffmpeg_path st.inArgs P.inputs st.outArgs P.output_path
        P.log_level) :: r := by
  rcases henv : P.env attempt with w | ⟨stderr, w⟩
  · rcases hvcb : P.validation_callback with _ | v
    · exact ⟨[], by simp [ffmpegStep, henv, hvcb, FfRes.evs, FfState.toOut]⟩
    · rcases hv : v attempt with _ | ⟨t, a⟩ | msg
      · exact ⟨[],
          by simp [ffmpegStep, henv, hvcb, hv, FfRes.evs, FfState.toOut]⟩
      · by_cases hc :
          attempt < P.num_retries - 1 ∧ (st.fileEx = true ∨ w = true)
        · rcases hrw : rewriteDurationArgs st.inArgs st.outArgs (t - a) with
            e | ⟨ia, oa⟩
          · exact ⟨[Ev.removeOutput], by simp [ffmpegStep, henv, hvcb, hv,
              FfRes.evs, FfState.toOut, hc, hrw]⟩
          · exact ⟨[Ev.removeOutput, Ev.logWarnDurationRetrying],
              by simp [ffmpegStep, henv, hvcb, hv, FfRes.evs, FfState.toOut,
                hc, hrw]⟩
        · rcases hrw : rewriteDurationArgs st.inArgs st.outArgs (t - a) with
            e | ⟨ia, oa⟩
          · exact ⟨[], by simp [ffmpegStep, henv, hvcb, hv, FfRes.evs,
              FfState.toOut, hc, hrw]⟩
          · exact ⟨[Ev.logWarnDurationRetrying],
              by simp [ffmpegStep, henv, hvcb, hv, FfRes.evs, FfState.toOut,
                hc, hrw]⟩
      · by_cases hc :
          attempt < P.num_retries - 1 ∧ (st.fileEx = true ∨ w = true)
        · exact ⟨[Ev.removeOutput, Ev.logInfoValidationRetrying],
            by simp [ffmpegStep, henv, hvcb, hv, FfRes.evs, FfState.toOut,
              hc]⟩
        · exact ⟨[Ev.logInfoValidationRetrying],
            by simp [ffmpegStep, henv, hvcb, hv, FfRes.evs, FfState.toOut,
              hc]⟩
  · by_cases hae :
      pyEndsWith (pyRstrip stderr) "already exists. Exiting." = true
    · exact ⟨[Ev.logInfoAlreadyExists],
        by simp [ffmpegStep, henv, hae, FfRes.evs, FfState.toOut]⟩
    · by_cases hhttp : P.httpMatch (pyRstrip stderr) = true
      · exact ⟨[], by simp [ffmpegStep, henv, hae, hhttp, FfRes.evs,
          FfState.toOut]⟩
      · by_cases hfx : st.fileEx = true ∨ w = true
        · exact ⟨[Ev.logErrorRetrying, Ev.removeOutput],
            by simp [ffmpegStep, henv, hae, hhttp, hfx, FfRes.evs,
              FfState.toOut]⟩
        · exact ⟨[Ev.logErrorRetrying],
            by simp [ffmpegStep, henv, hae, hhttp, hfx, FfRes.evs,
              FfState.toOut]⟩

/-- The function `invokes` distributes over append. -/
lemma invokes_append (l1 l2 : List Ev) :
    invokes (l1 ++ l2) = invokes l1 ++ invokes l2 := by
  simp [invokes]

/-- The function `invokes` extracts a leading invocation event. -/
lemma invokes_cons_invoke (a : List Tok) (l : List Ev) :
    invokes (Ev.invoke a :: l) = a :: invokes l := rfl

/-- The retry loop only ever appends to the event trace. -/
lemma ffmpegGo_evs_mono (P : FfParams) :
    ∀ (fuel attempt : ℕ) (st : FfState),
      ∃ r, (ffmpegGo P fuel attempt st).evs = st.evs ++ r
  | 0, _, st =>
    ⟨[Ev.logErrorMaxRetries P.num_retries st.lastErr], by simp [ffmpegGo]⟩
  | fuel + 1, attempt, st => by
    obtain ⟨r, hr⟩ := ffmpegStep_invoke_first P attempt st
    rcases hstep : ffmpegStep P attempt st with o | st'
    · rw [hstep] at hr
      simp only [FfRes.evs] at hr
      exact ⟨Ev.invoke (ffmpegArgv P.ffmpeg_path st.inArgs P.inputs
        st.outArgs P.output_path P.log_level) :: r,
        by simp [ffmpegGo, hstep, hr]⟩
    · rw [hstep] at hr
      simp only [FfRes.evs] at hr
      obtain ⟨r2, hr2⟩ := ffmpegGo_evs_mono P fuel (attempt + 1) st'
      exact ⟨Ev.invoke (ffmpegArgv P.ffmpeg_path st.inArgs P.inputs
        st.outArgs P.output_path P.log_level) :: (r ++ r2),
        by simp [ffmpegGo, hstep, hr2, hr]⟩

/-- With at least one attempt left, the remaining trace starts with the
invocation built from the current argument lists. -/
lemma ffmpegGo_succ_invoke (P : FfParams) (fuel attempt : ℕ) (st : FfState) :
    ∃ r, (ffmpegGo P (fuel + 1) attempt st).evs
      = st.evs ++ Ev.invoke (ffmpegArgv P.ffmpeg_path st.inArgs P.inputs
          st.outArgs P.output_path P.log_level) :: r := by
  obtain ⟨r, hr⟩ := ffmpegStep_invoke_first P attempt st
  rcases hstep : ffmpegStep P attempt st with o | st'
  · rw [hstep] at hr
    simp only [FfRes.evs] at hr
    exact ⟨r, by simp [ffmpegGo, hstep, hr]⟩
  · rw [hstep] at hr
    simp only [FfRes.evs] at hr
    obtain ⟨r2, hr2⟩ := ffmpegGo_evs_mono P fuel (attempt + 1) st'
    exact ⟨r ++ r2, by simp [ffmpegGo, hstep, hr2, hr]⟩

/-- Without a validation callback an iteration that leaves the loop never
carries an exception: only the duration-rewrite branch can raise, and it is
guarded by the callback. -/
lemma ffmpegStep_done_raised_none (P : FfParams) (attempt : ℕ)
    (st : FfState) (hvcb : P.validation_callback = none) (o : FfOut)
    (hstep : ffmpegStep P attempt st = FfRes.done o) : o.raised = none := by
  rcases henv : P.env attempt with w | ⟨stderr, w⟩
  · simp [ffmpegStep, henv, hvcb, FfState.toOut] at hstep
    simp [← hstep]
  · by_cases hae :
      pyEndsWith (pyRstrip stderr) "already exists. Exiting." = true
    · simp [ffmpegStep, henv, hae, FfState.toOut] at hstep
      simp [← hstep]
    · by_cases hhttp : P.httpMatch (pyRstrip stderr) = true
      · simp [ffmpegStep, henv, hae, hhttp] at hstep
      · by_cases hfx : st.fileEx = true ∨ w = true
        · simp [ffmpegStep, henv, hae, hhttp, hfx] at hstep
        · simp [ffmpegStep, henv, hae, hhttp, hfx] at hstep

/-- A call with `validation_callback=None` returns normally: no exception
escapes the loop. -/
lemma ffmpegGo_raised_none (P : FfParams)
    (hvcb : P.validation_callback = none) :
    ∀ (fuel attempt : ℕ) (st : FfState),
      (ffmpegGo P fuel attempt st).raised = none
  | 0, _, st => by simp [ffmpegGo]
  | fuel + 1, attempt, st => by
    rcases hstep : ffmpegStep P attempt st with o | st'
    · have h := ffmpegStep_done_raised_none P attempt st hvcb o hstep
      simp [ffmpegGo, hstep, h]
    · simp only [ffmpegGo, hstep]
      exact ffmpegGo_raised_none P hvcb fuel (attempt + 1) st'

/-- An `ffmpeg` call with no validation callback returns normally. -/
lemma ffmpeg_none_raised (hm : String → Bool) (env : ℕ → AttemptResult)
    (fp : String) (ip : InputPath) (op : String) (ia oa : List Tok)
    (lvl : String) (n : ℕ) (fx : Bool) :
    (ffmpeg hm env fp ip op ia oa lvl n none fx).raised = none :=
  ffmpegGo_raised_none _ rfl n 0 _

/-- With at least one permitted attempt, the invocation built from the
initial argument lists appears in the trace of the call. -/
lemma ffmpeg_first_invoke_mem (hm : String → Bool) (env : ℕ → AttemptResult)
    (fp : String) (ip : InputPath) (op : String) (ia oa : List Tok)
    (lvl : String) (n : ℕ) (vcb : Option (ℕ → VOutcome)) (fx : Bool)
    (hn : 0 < n) :
    Ev.invoke (ffmpegArgv fp ia (expandInputs ip) oa op lvl)
      ∈ (ffmpeg hm env fp ip op ia oa lvl n vcb fx).evs := by
  obtain ⟨k, rfl⟩ : ∃ k, n = k + 1 := ⟨n - 1, by omega⟩
  obtain ⟨r, hr⟩ := ffmpegGo_succ_invoke
    ⟨hm, env, vcb, fp, expandInputs ip, op, lvl, k + 1⟩ k 0
    ⟨ia, oa, fx, none, []⟩
  simp only [ffmpeg]
  rw [hr]
  simp

/-- The full shape of the loop when every attempt fails with an HTTP-pattern
stderr (that does not carry the already-exists marker): one unchanged
invocation per attempt, then the exhausted-retries log carrying the last
error, with no exception. -/
lemma ffmpegGo_all_http (P : FfParams) (stf : ℕ → String) (wf : ℕ → Bool) :
    ∀ (fuel attempt : ℕ) (st : FfState),
      (∀ j, j < fuel → P.env (attempt + j)
        = AttemptResult.fail (stf (attempt + j)) (wf (attempt + j))) →
      (∀ j, j < fuel → pyEndsWith (pyRstrip (stf (attempt + j)))
        "already exists. Exiting." = false) →
      (∀ j, j < fuel → P.httpMatch (pyRstrip (stf (attempt + j))) = true) →
      (ffmpegGo P fuel attempt st).evs
        = st.evs ++ List.replicate fuel (Ev.invoke (ffmpegArgv P.ffmpeg_path
            st.inArgs P.inputs st.outArgs P.output_path P.log_level))
          ++ [Ev.logErrorMaxRetries P.num_retries
              (if fuel = 0 then st.lastErr
               else some (FfErr.subprocess (stf (attempt + fuel - 1))))]
      ∧ (ffmpegGo P fuel attempt st).raised = none
  | 0, attempt, st, _, _, _ => by simp [ffmpegGo]
  | fuel + 1, attempt, st, henv, hae, hhttp => by
    have h0 := henv 0 (Nat.succ_pos _)
    have hae0 := hae 0 (Nat.succ_pos _)
    have hh0 := hhttp 0 (Nat.succ_pos _)
    rw [Nat.add_zero] at h0 hae0 hh0
    have hstep := ffmpegStep_http P attempt st (stf attempt) (wf attempt)
      h0 hae0 hh0
    have IH := ffmpegGo_all_http P stf wf fuel (attempt + 1)
      { st with
        evs := st.evs ++ [Ev.invoke (ffmpegArgv P.ffmpeg_path st.inArgs
          P.inputs st.outArgs P.output_path P.log_level)]
        fileEx := st.fileEx || wf attempt
        lastErr := some (FfErr.subprocess (stf attempt)) }
      (fun j hj => by
        have h := henv (j + 1) (by omega)
        rwa [show attempt + (j + 1) = attempt + 1 + j by omega] at h)
      (fun j hj => by
        have h := hae (j + 1) (by omega)
        rwa [show attempt + (j + 1) = attempt + 1 + j by omega] at h)
      (fun j hj => by
        have h := hhttp (j + 1) (by omega)
        rwa [show attempt + (j + 1) = attempt + 1 + j by omega] at h)
    obtain ⟨he, hr⟩ := IH
    have hgo : ffmpegGo P (fuel + 1) attempt st
        = ffmpegGo P fuel (attempt + 1)
          { st with
            evs := st.evs ++ [Ev.invoke (ffmpegArgv P.ffmpeg_path st.inArgs
              P.inputs st.outArgs P.output_path P.log_level)]
            fileEx := st.fileEx || wf attempt
            lastErr := some (FfErr.subprocess (stf attempt)) } := by
      simp [ffmpegGo, hstep]
    refine ⟨?_, by rw [hgo]; exact hr⟩
    rw [hgo, he]
    rcases Nat.eq_zero_or_pos fuel with hf | hf
    · subst hf
      simp [List.replicate_succ]
    · have hif : ¬ fuel = 0 := by omega
      have hidx : attempt + 1 + fuel - 1 = attempt + (fuel + 1) - 1 := by
        omega
      simp only [hif, if_false, Nat.succ_ne_zero, hidx,
        List.replicate_succ, List.append_assoc, List.cons_append,
        List.nil_append, List.singleton_append]

/-- C10: when `ffmpeg` is called with `num_retries = 0`, the retry loop body
never runs: no external-tool invocation is made, the maximum-retries-reached
message is logged with last error `None`, and the call returns normally,
leaving the argument lists and the output file untouched. -/
theorem C10_zero_retries_no_invocation (hm : String → Bool)
    (env : ℕ → AttemptResult) (vcb : Option (ℕ → VOutcome)) (fp : String)
    (ip : InputPath) (op : String) (ia oa : List Tok) (lvl : String)
    (fx : Bool) :
    ffmpeg hm env fp ip op ia oa lvl 0 vcb fx
      = { evs := [Ev.logErrorMaxRetries 0 none], fileEx := fx,
          inArgs := ia, outArgs := oa, raised := none } := by
  simp [ffmpeg, ffmpegGo]

/-- C6: when an attempt of the retry loop fails and its (right-stripped)
captured stderr ends with the `already exists. Exiting.` marker, the
invocation is treated as satisfied: the loop stops immediately with no
further attempt, the iteration emits only the invocation and the info log —
in particular no deletion of the existing output file — and the call ends
without error. -/
theorem C6_already_exists_stops (P : FfParams) (fuel attempt : ℕ)
    (st : FfState) (stderr : String) (wrote : Bool)
    (henv : P.env attempt = AttemptResult.fail stderr wrote)
    (hae : pyEndsWith (pyRstrip stderr) "already exists. Exiting." = true) :
    ffmpegGo P (fuel + 1) attempt st
      = { evs := st.evs ++ [Ev.invoke (ffmpegArgv P.ffmpeg_path st.inArgs
            P.inputs st.outArgs P.output_path P.log_level),
            Ev.logInfoAlreadyExists],
          fileEx := st.fileEx || wrote, inArgs := st.inArgs,
          outArgs := st.outArgs, raised := none } := by
  simp [ffmpegGo,
    ffmpegStep_already_exists P attempt st stderr wrote henv hae]

/-- Witness for C6 at a concrete input. -/
theorem C6_already_exists_stops_witness :
    (Pae.env 0 = AttemptResult.fail
        "File out.wav already exists. Exiting." false)
    ∧ (pyEndsWith (pyRstrip "File out.wav already exists. Exiting.")
        "already exists. Exiting." = true)
    ∧ ffmpegGo Pae (1 + 1) 0 (initSt [] [] true)
      = { evs := [Ev.invoke (ffmpegArgv "ffmpeg" [] [Tok.str "-i",
            Tok.str "u"] [] "out.wav" "error"), Ev.logInfoAlreadyExists],
          fileEx := true, inArgs := [], outArgs := [], raised := none } :=
  ⟨rfl, by decide,
    C6_already_exists_stops Pae 1 0 (initSt [] [] true)
      "File out.wav already exists. Exiting." false rfl (by decide)⟩

/-- C5 (amended): when an attempt fails with stderr matching the HTTP
4xx/5xx pattern (and not carrying the already-exists marker), the outcome is
classified as transient and the loop proceeds to the next attempt — but the
branch performs no deletion: the iteration emits only the invocation event,
and a partially written output file stays in place for the next attempt. -/
theorem C5_http_transient_retry_no_deletion (P : FfParams)
    (fuel attempt : ℕ) (st : FfState) (stderr : String) (wrote : Bool)
    (henv : P.env attempt = AttemptResult.fail stderr wrote)
    (hae : pyEndsWith (pyRstrip stderr) "already exists. Exiting." = false)
    (hhttp : P.httpMatch (pyRstrip stderr) = true) :
    ffmpegGo P (fuel + 1) attempt st
      = ffmpegGo P fuel (attempt + 1)
          { st with
            evs := st.evs ++ [Ev.invoke (ffmpegArgv P.ffmpeg_path st.inArgs
              P.inputs st.outArgs P.output_path P.log_level)]
            fileEx := st.fileEx || wrote
            lastErr := some (FfErr.subprocess stderr) } := by
  simp [ffmpegGo, ffmpegStep_http P attempt st stderr wrote henv hae hhttp]

/-- Witness for the amended C5 at a concrete input. -/
theorem C5_http_transient_retry_no_deletion_witness :
    (Phttp.env 0 = AttemptResult.fail "HTTP error 503" true)
    ∧ (pyEndsWith (pyRstrip "HTTP error 503")
        "already exists. Exiting." = false)
    ∧ (Phttp.httpMatch (pyRstrip "HTTP error 503") = true)
    ∧ ffmpegGo Phttp (1 + 1) 0 (initSt [] [] false)
      = ffmpegGo Phttp 1 1
          { inArgs := [], outArgs := [], fileEx := true,
            lastErr := some (FfErr.subprocess "HTTP error 503"),
            evs := [Ev.invoke (ffmpegArgv "ffmpeg" [] [Tok.str "-i",
              Tok.str "u"] [] "o" "error")] } :=
  ⟨rfl, by decide, by decide,
    C5_http_transient_retry_no_deletion Phttp 1 0 (initSt [] [] false)
      "HTTP error 503" true rfl (by decide) (by decide)⟩

/-- Counterexample to C5 as stated: a concrete two-attempt run in which the
first attempt fails with an HTTP-pattern stderr and leaves a partially
written output file; the next attempt is issued, yet no deletion event
occurs anywhere in the trace and the partial file is still present at the
end. -/
theorem C5_counterexample :
    (ffmpeg httpMatch503 envHttp503w "ffmpeg" (InputPath.single "u") "o"
        [] [] "error" 2 none false).evs
      = [Ev.invoke (ffmpegArgv "ffmpeg" [] [Tok.str "-i", Tok.str "u"]
          [] "o" "error"),
         Ev.invoke (ffmpegArgv "ffmpeg" [] [Tok.str "-i", Tok.str "u"]
          [] "o" "error"),
         Ev.logErrorMaxRetries 2 (some (FfErr.subprocess "HTTP error 503"))]
    ∧ Ev.removeOutput ∉ (ffmpeg httpMatch503 envHttp503w "ffmpeg"
        (InputPath.single "u") "o" [] [] "error" 2 none false).evs
    ∧ (ffmpeg httpMatch503 envHttp503w "ffmpeg" (InputPath.single "u") "o"
        [] [] "error" 2 none false).fileEx = true := by decide

/-- C2: when every attempt's tool run fails with an HTTP 4xx/5xx-pattern
stderr (not carrying the already-exists marker), `ffmpeg` performs exactly
`num_retries` external-tool invocations, then logs the exhausted-retries
condition carrying the last error, and returns normally: no exception
reaches the caller, and since the Python function returns `None`
unconditionally, the caller receives no structured failure value. -/
theorem C2_http_failures_exhaust_retries (hm : String → Bool)
    (env : ℕ → AttemptResult) (vcb : Option (ℕ → VOutcome))
    (stf : ℕ → String) (wf : ℕ → Bool) (fp : String) (ip : InputPath)
    (op : String) (ia oa : List Tok) (lvl : String) (n : ℕ) (fx : Bool)
    (hn : 0 < n)
    (henv : ∀ j, j < n → env j = AttemptResult.fail (stf j) (wf j))
    (hae : ∀ j, j < n →
      pyEndsWith (pyRstrip (stf j)) "already exists. Exiting." = false)
    (hhttp : ∀ j, j < n → hm (pyRstrip (stf j)) = true) :
    (ffmpeg hm env fp ip op ia oa lvl n vcb fx).evs
      = List.replicate n
          (Ev.invoke (ffmpegArgv fp ia (expandInputs ip) oa op lvl))
        ++ [Ev.logErrorMaxRetries n
            (some (FfErr.subprocess (stf (n - 1))))]
    ∧ (ffmpeg hm env fp ip op ia oa lvl n vcb fx).raised = none := by
  have h := ffmpegGo_all_http
    ⟨hm, env, vcb, fp, expandInputs ip, op, lvl, n⟩ stf wf n 0
    ⟨ia, oa, fx, none, []⟩
    (fun j hj => by simpa using henv j hj)
    (fun j hj => by simpa using hae j hj)
    (fun j hj => by simpa using hhttp j hj)
  obtain ⟨he, hr⟩ := h
  have hne : ¬ n = 0 := by omega
  refine ⟨?_, hr⟩
  rw [show (ffmpeg hm env fp ip op ia oa lvl n vcb fx)
      = ffmpegGo ⟨hm, env, vcb, fp, expandInputs ip, op, lvl, n⟩ n 0
          ⟨ia, oa, fx, none, []⟩ from rfl, he]
  simp [hne]

/-- Witness for C2 at a concrete input. -/
theorem C2_http_failures_exhaust_retries_witness :
    (0 < 3)
    ∧ (∀ j, j < 3 → envHttp503 j
        = AttemptResult.fail "HTTP error 503" false)
    ∧ (∀ j, j < 3 → pyEndsWith (pyRstrip "HTTP error 503")
        "already exists. Exiting." = false)
    ∧ (∀ j, j < 3 → httpMatch503 (pyRstrip "HTTP error 503") = true)
    ∧ ((ffmpeg httpMatch503 envHttp503 "ffmpeg" (InputPath.single "u") "o"
          [Tok.str "-n"] [Tok.str "-t", Tok.num 10] "error" 3 none
          false).evs
        = List.replicate 3 (Ev.invoke (ffmpegArgv "ffmpeg" [Tok.str "-n"]
            (expandInputs (InputPath.single "u"))
            [Tok.str "-t", Tok.num 10] "o" "error"))
          ++ [Ev.logErrorMaxRetries 3
              (some (FfErr.subprocess "HTTP error 503"))]
       ∧ (ffmpeg httpMatch503 envHttp503 "ffmpeg" (InputPath.single "u")
            "o" [Tok.str "-n"] [Tok.str "-t", Tok.num 10] "error" 3 none
            false).raised = none) :=
  ⟨by decide, by decide, by decide, by decide,
    C2_http_failures_exhaust_retries httpMatch503 envHttp503 none
      (fun _ => "HTTP error 503") (fun _ => false) "ffmpeg"
      (InputPath.single "u") "o" [Tok.str "-n"] [Tok.str "-t", Tok.num 10]
      "error" 3 false (by decide) (by decide) (by decide) (by decide)⟩

/-- C1: in the retry loop, when a duration-mismatch error reports target and
actual durations and a `-t` token is present (here in the output args — the
input args being the `-ss`-style list carrying no `-t`, as in this
program), the value following `-t` is rewritten to the current value plus
(target − actual), compounding across attempts: the first three invocations
carry `-t q`, `-t (q + d1)` and `-t (q + d1 + d2)`, where `d1` and `d2` are
the mismatches of the first two attempts — each adjustment applies to the
previous rewritten value, not the original. -/
theorem C1_duration_adjustment_cumulative (hm : String → Bool)
    (env : ℕ → AttemptResult) (v : ℕ → VOutcome) (w0 w1 : Bool)
    (ts q t1 a1 t2 a2 : ℚ) (rest : List Tok) (fp url op lvl : String)
    (n : ℕ) (fx : Bool) (hn : 3 ≤ n)
    (henv0 : env 0 = AttemptResult.ok w0)
    (henv1 : env 1 = AttemptResult.ok w1)
    (hv0 : v 0 = VOutcome.incorrectDuration t1 a1)
    (hv1 : v 1 = VOutcome.incorrectDuration t2 a2) :
    [ffmpegArgv fp [Tok.str "-n", Tok.str "-ss", Tok.num ts]
        (expandInputs (InputPath.single url))
        (Tok.str "-t" :: Tok.num q :: rest) op lvl,
     ffmpegArgv fp [Tok.str "-n", Tok.str "-ss", Tok.num ts]
        (expandInputs (InputPath.single url))
        (Tok.str "-t" :: Tok.num (q + (t1 - a1)) :: rest) op lvl,
     ffmpegArgv fp [Tok.str "-n", Tok.str "-ss", Tok.num ts]
        (expandInputs (InputPath.single url))
        (Tok.str "-t" :: Tok.num (q + (t1 - a1) + (t2 - a2)) :: rest)
        op lvl]
      <+: invokes (ffmpeg hm env fp (InputPath.single url) op
        [Tok.str "-n", Tok.str "-ss", Tok.num ts]
        (Tok.str "-t" :: Tok.num q :: rest) lvl n (some v) fx).evs := by
  obtain ⟨k, rfl⟩ : ∃ k, n = k + 3 := ⟨n - 3, by omega⟩
  have hrw0 : rewriteDurationArgs [Tok.str "-n", Tok.str "-ss", Tok.num ts]
      (Tok.str "-t" :: Tok.num q :: rest) (t1 - a1)
      = Except.ok ([Tok.str "-n", Tok.str "-ss", Tok.num ts],
          Tok.str "-t" :: Tok.num (q + (t1 - a1)) :: rest) := by
    simp [rewriteDurationArgs, adjustDurationArg_audio_in,
      adjustDurationArg_head, Except.map]
  have hrw1 : rewriteDurationArgs [Tok.str "-n", Tok.str "-ss", Tok.num ts]
      (Tok.str "-t" :: Tok.num (q + (t1 - a1)) :: rest) (t2 - a2)
      = Except.ok ([Tok.str "-n", Tok.str "-ss", Tok.num ts],
          Tok.str "-t" :: Tok.num (q + (t1 - a1) + (t2 - a2)) :: rest) := by
    simp [rewriteDurationArgs, adjustDurationArg_audio_in,
      adjustDurationArg_head, Except.map]
  set P : FfParams := ⟨hm, env, some v, fp,
    expandInputs (InputPath.single url), op, lvl, k + 3⟩ with hP
  set st0 : FfState := initSt [Tok.str "-n", Tok.str "-ss", Tok.num ts]
    (Tok.str "-t" :: Tok.num q :: rest) fx with hst0
  obtain ⟨st1, hstep0, h1in, h1out, r1, h1evs, hi1⟩ :=
    ffmpegStep_duration P 0 st0 w0 v t1 a1 _ _ henv0 rfl hv0 hrw0
  have hrw1' : rewriteDurationArgs st1.inArgs st1.outArgs (t2 - a2)
      = Except.ok ([Tok.str "-n", Tok.str "-ss", Tok.num ts],
          Tok.str "-t" :: Tok.num (q + (t1 - a1) + (t2 - a2)) :: rest) := by
    rw [h1in, h1out]; exact hrw1
  obtain ⟨st2, hstep1, h2in, h2out, r2, h2evs, hi2⟩ :=
    ffmpegStep_duration P 1 st1 w1 v t2 a2 _ _ henv1 rfl hv1 hrw1'
  obtain ⟨r3, hr3⟩ := ffmpegGo_succ_invoke P k 2 st2
  have e0 : ffmpegGo P (k + 1 + 1 + 1) 0 st0
      = ffmpegGo P (k + 1 + 1) 1 st1 := by
    simp only [ffmpegGo, hstep0]
  have e1 : ffmpegGo P (k + 1 + 1) 1 st1
      = ffmpegGo P (k + 1) 2 st2 := by
    simp only [ffmpegGo, hstep1]
  have hevs : invokes (ffmpeg hm env fp (InputPath.single url) op
      [Tok.str "-n", Tok.str "-ss", Tok.num ts]
      (Tok.str "-t" :: Tok.num q :: rest) lvl (k + 3) (some v) fx).evs
      = ffmpegArgv fp [Tok.str "-n", Tok.str "-ss", Tok.num ts]
          (expandInputs (InputPath.single url))
          (Tok.str "-t" :: Tok.num q :: rest) op lvl
        :: ffmpegArgv fp [Tok.str "-n", Tok.str "-ss", Tok.num ts]
          (expandInputs (InputPath.single url))
          (Tok.str "-t" :: Tok.num (q + (t1 - a1)) :: rest) op lvl
        :: ffmpegArgv fp [Tok.str "-n", Tok.str "-ss", Tok.num ts]
          (expandInputs (InputPath.single url))
          (Tok.str "-t" :: Tok.num (q + (t1 - a1) + (t2 - a2)) :: rest)
          op lvl
        :: invokes r3 := by
    rw [show (ffmpeg hm env fp (InputPath.single url) op
        [Tok.str "-n", Tok.str "-ss", Tok.num ts]
        (Tok.str "-t" :: Tok.num q :: rest) lvl (k + 3) (some v) fx)
        = ffmpegGo P (k + 1 + 1 + 1) 0 st0 from rfl, e0, e1, hr3, h2evs,
      h1evs]
    simp [invokes_append, invokes_cons_invoke, hi1, hi2, hst0, initSt,
      h1in, h1out, h2in, h2out, hP]
  rw [hevs]
  exact List.prefix_append _ _

/-- Witness for C1 at the spec example: `-t 10` with mismatches 0.5 and
0.2 gives invocations carrying `-t 10`, `-t 10.5`, `-t 10.7`. -/
theorem C1_duration_adjustment_cumulative_witness :
    (3 ≤ 3)
    ∧ (envOkW 0 = AttemptResult.ok true)
    ∧ (envOkW 1 = AttemptResult.ok true)
    ∧ (vDur2 0 = VOutcome.incorrectDuration 10 (19/2))
    ∧ (vDur2 1 = VOutcome.incorrectDuration (21/2) (103/10))
    ∧ [ffmpegArgv "ffmpeg" [Tok.str "-n", Tok.str "-ss", Tok.num 0]
          (expandInputs (InputPath.single "u"))
          (Tok.str "-t" :: Tok.num 10 :: []) "o" "error",
       ffmpegArgv "ffmpeg" [Tok.str "-n", Tok.str "-ss", Tok.num 0]
          (expandInputs (InputPath.single "u"))
          (Tok.str "-t" :: Tok.num (10 + (10 - 19/2)) :: []) "o" "error",
       ffmpegArgv "ffmpeg" [Tok.str "-n", Tok.str "-ss", Tok.num 0]
          (expandInputs (InputPath.single "u"))
          (Tok.str "-t" :: Tok.num (10 + (10 - 19/2) + (21/2 - 103/10))
            :: []) "o" "error"]
      <+: invokes (ffmpeg httpMatch503 envOkW "ffmpeg"
          (InputPath.single "u") "o"
          [Tok.str "-n", Tok.str "-ss", Tok.num 0]
          (Tok.str "-t" :: Tok.num 10 :: []) "error" 3 (some vDur2)
          false).evs :=
  ⟨by decide, rfl, rfl, rfl, rfl,
    C1_duration_adjustment_cumulative httpMatch503 envOkW vDur2 true true
      0 10 10 (19/2) (21/2) (103/10) [] "ffmpeg" "u" "o" "error" 3 false
      (by decide) rfl rfl rfl rfl⟩

/-- The function `invocationCount` distributes over append. -/
lemma invocationCount_append (l1 l2 : List DEv) :
    invocationCount (l1 ++ l2)
      = invocationCount l1 + invocationCount l2 := by
  simp [invocationCount, List.filter_append]

/-- The pre-invocation cleanup performs no external-tool invocation. -/
lemma invocationCount_cleanup (fs : String → Bool) (a b c : String) :
    invocationCount (cleanupEvs fs a b c) = 0 := by
  unfold invocationCount cleanupEvs
  split_ifs <;> simp [DEv.isInvoke]

/-- C4 (amended): for an identifier whose length is not 11,
`download_yt_video` issues zero external-tool invocations and returns the
no-op pair `(None, None)` without raising — but it does not leave the
filesystem unchanged: before the length check it deletes whichever of the
three derived output files pre-exist, because the cleanup (lines 288–295)
precedes the malformed-identifier check (line 297). -/
theorem C4_malformed_id_no_invocation_but_cleanup (E : YtEnv)
    (ytid : String) (ts1 ts2 : ℚ) (dir fp fpp : String) (cfg : YtCfg)
    (h11 : ytid.length ≠ 11) :
    download_yt_video E ytid ts1 ts2 dir fp fpp cfg
      = { evs := cleanupEvs E.fs
            (videowithaudio_filepath dir ytid ts1 ts2 cfg.video_format)
            (video_filepath dir ytid ts1 ts2 cfg.video_format)
            (audio_filepath dir ytid ts1 ts2 cfg.audio_format)
            ++ [DEv.printId ytid],
          raised := none, ret := some (none, none) }
    ∧ invocationCount
        (download_yt_video E ytid ts1 ts2 dir fp fpp cfg).evs = 0 := by
  have h : download_yt_video E ytid ts1 ts2 dir fp fpp cfg
      = { evs := cleanupEvs E.fs
            (videowithaudio_filepath dir ytid ts1 ts2 cfg.video_format)
            (video_filepath dir ytid ts1 ts2 cfg.video_format)
            (audio_filepath dir ytid ts1 ts2 cfg.audio_format)
            ++ [DEv.printId ytid],
          raised := none, ret := some (none, none) } := by
    simp [download_yt_video, h11]
  refine ⟨h, ?_⟩
  rw [h, invocationCount_append, invocationCount_cleanup]
  simp [invocationCount, DEv.isInvoke]

/-- Witness for the amended C4 at a concrete input. -/
theorem C4_malformed_id_no_invocation_but_cleanup_witness :
    ("short".length ≠ 11)
    ∧ (download_yt_video Eok "short" 0 10 "data" "ffmpeg" "ffprobe"
          YtCfg.dflt
        = { evs := cleanupEvs Eok.fs
              (videowithaudio_filepath "data" "short" 0 10
                YtCfg.dflt.video_format)
              (video_filepath "data" "short" 0 10 YtCfg.dflt.video_format)
              (audio_filepath "data" "short" 0 10 YtCfg.dflt.audio_format)
              ++ [DEv.printId "short"],
            raised := none, ret := some (none, none) }
       ∧ invocationCount (download_yt_video Eok "short" 0 10 "data"
            "ffmpeg" "ffprobe" YtCfg.dflt).evs = 0) :=
  ⟨by decide,
    C4_malformed_id_no_invocation_but_cleanup Eok "short" 0 10 "data"
      "ffmpeg" "ffprobe" YtCfg.dflt (by decide)⟩

/-- Counterexample to C4 as stated: with a malformed (5-character)
identifier and all three output files pre-existing, the call does delete
the pre-existing audio output (and the other two), so the filesystem is not
left unchanged, even though zero invocations are issued. -/
theorem C4_counterexample :
    Eok.fs (audio_filepath "data" "short" 0 10 "flac") = true
    ∧ DEv.remove (audio_filepath "data" "short" 0 10 "flac")
        ∈ (download_yt_video Eok "short" 0 10 "data" "ffmpeg" "ffprobe"
            YtCfg.dflt).evs
    ∧ invocationCount (download_yt_video Eok "short" 0 10 "data" "ffmpeg"
        "ffprobe" YtCfg.dflt).evs = 0 := by decide

/-- C3 (amended): a non-`h264` video codec makes `download_yt_video` raise
`NotImplementedError` before the video-extraction and mux invocations — but
only after the audio-extraction `ffmpeg` call, whose events (including one
external-tool invocation per permitted attempt) have already happened,
because the codec check (line 334) follows the audio call (line 329). -/
theorem C3_codec_check_after_audio_invocation (E : YtEnv) (ytid : String)
    (ts1 ts2 : ℚ) (dir fp fpp url : String) (cfg : YtCfg)
    (h11 : ytid.length = 11) (hurl : E.resolvedUrl = some url)
    (hcodec : cfg.video_codec ≠ "h264") :
    download_yt_video E ytid ts1 ts2 dir fp fpp cfg
      = { evs := cleanupEvs E.fs
            (videowithaudio_filepath dir ytid ts1 ts2 cfg.video_format)
            (video_filepath dir ytid ts1 ts2 cfg.video_format)
            (audio_filepath dir ytid ts1 ts2 cfg.audio_format)
            ++ [DEv.getFormats ytid]
            ++ (ffmpeg E.httpMatch E.audioEnv fp (InputPath.single url)
                (audio_filepath dir ytid ts1 ts2 cfg.audio_format)
                (audio_input_args ts1) (audio_output_args cfg) "error"
                cfg.num_retries none false).evs.map
                (DEv.ff (audio_filepath dir ytid ts1 ts2 cfg.audio_format)),
          raised := some (YtRaised.notImplementedError cfg.video_codec),
          ret := none } := by
  simp [download_yt_video, h11, hurl, hcodec, ffmpeg_none_raised]

/-- Witness for the amended C3 at a concrete input. -/
theorem C3_codec_check_after_audio_invocation_witness :
    ("abcdefghijk".length = 11)
    ∧ (Eok.resolvedUrl = some "http://u")
    ∧ (cfgVp9.video_codec ≠ "h264")
    ∧ download_yt_video Eok "abcdefghijk" 0 10 "data" "ffmpeg" "ffprobe"
        cfgVp9
      = { evs := cleanupEvs Eok.fs
            (videowithaudio_filepath "data" "abcdefghijk" 0 10
              cfgVp9.video_format)
            (video_filepath "data" "abcdefghijk" 0 10 cfgVp9.video_format)
            (audio_filepath "data" "abcdefghijk" 0 10 cfgVp9.audio_format)
            ++ [DEv.getFormats "abcdefghijk"]
            ++ (ffmpeg Eok.httpMatch Eok.audioEnv "ffmpeg"
                (InputPath.single "http://u")
                (audio_filepath "data" "abcdefghijk" 0 10
                  cfgVp9.audio_format)
                (audio_input_args 0) (audio_output_args cfgVp9) "error"
                cfgVp9.num_retries none false).evs.map
                (DEv.ff (audio_filepath "data" "abcdefghijk" 0 10
                  cfgVp9.audio_format)),
          raised := some (YtRaised.notImplementedError cfgVp9.video_codec),
          ret := none } :=
  ⟨by decide, rfl, by decide,
    C3_codec_check_after_audio_invocation Eok "abcdefghijk" 0 10 "data"
      "ffmpeg" "ffprobe" "http://u" cfgVp9 (by decide) rfl (by decide)⟩

/-- Counterexample to C3 as stated: with codec `vp9`, one permitted attempt
and a successful audio run, `NotImplementedError` is raised, yet one
external-tool invocation (the audio extraction) has already been issued —
so the error is not raised before any invocation. -/
theorem C3_counterexample :
    ("abcdefghijk".length = 11)
    ∧ (cfgVp9.video_codec ≠ "h264")
    ∧ (download_yt_video Eok "abcdefghijk" 0 10 "data" "ffmpeg" "ffprobe"
        cfgVp9).raised = some (YtRaised.notImplementedError "vp9")
    ∧ invocationCount (download_yt_video Eok "abcdefghijk" 0 10 "data"
        "ffmpeg" "ffprobe" cfgVp9).evs = 1 := by decide

/-- C9: for a well-formed (11-character) identifier — with the URL
resolvable, the supported `h264` codec, and at least one permitted attempt —
`download_yt_video` issues the mux invocation with the video and audio
output paths as its two `-i` inputs and returns the pair
(video path, audio path).  The environment (the outcome of every tool
attempt of all three calls) is universally quantified, so the conclusion is
the same for a fully successful acquisition and one whose audio and video
extractions exhausted all retries: the returned value does not distinguish
them. -/
theorem C9_mux_always_issued_and_pair_returned (E : YtEnv) (ytid : String)
    (ts1 ts2 : ℚ) (dir fp fpp url : String) (cfg : YtCfg)
    (h11 : ytid.length = 11) (hurl : E.resolvedUrl = some url)
    (hcodec : cfg.video_codec = "h264") (hn : 0 < cfg.num_retries) :
    (download_yt_video E ytid ts1 ts2 dir fp fpp cfg).ret
      = some (some (video_filepath dir ytid ts1 ts2 cfg.video_format),
              some (audio_filepath dir ytid ts1 ts2 cfg.audio_format))
    ∧ (download_yt_video E ytid ts1 ts2 dir fp fpp cfg).raised = none
    ∧ DEv.ff (videowithaudio_filepath dir ytid ts1 ts2 cfg.video_format)
        (Ev.invoke (ffmpegArgv fp mux_input_args
          (expandInputs (InputPath.multi
            [video_filepath dir ytid ts1 ts2 cfg.video_format,
             audio_filepath dir ytid ts1 ts2 cfg.audio_format]))
          (mux_output_args cfg)
          (videowithaudio_filepath dir ytid ts1 ts2 cfg.video_format)
          "error"))
        ∈ (download_yt_video E ytid ts1 ts2 dir fp fpp cfg).evs := by
  have hmem := ffmpeg_first_invoke_mem E.httpMatch E.muxEnv fp
    (InputPath.multi [video_filepath dir ytid ts1 ts2 cfg.video_format,
      audio_filepath dir ytid ts1 ts2 cfg.audio_format])
    (videowithaudio_filepath dir ytid ts1 ts2 cfg.video_format)
    mux_input_args (mux_output_args cfg) "error" cfg.num_retries none
    false hn
  simp only [download_yt_video, h11, hurl, hcodec, ffmpeg_none_raised]
  simp only [ne_eq, not_true_eq_false, if_false, ite_false]
  refine ⟨?_, ?_, ?_⟩
  · simp
  · simp
  · simp only [List.mem_append]
    exact Or.inl (Or.inr (List.mem_map_of_mem _ hmem))

/-- Witness for C9 at a concrete input (every tool attempt succeeding). -/
theorem C9_mux_always_issued_and_pair_returned_witness :
    ("abcdefghijk".length = 11)
    ∧ (Eok.resolvedUrl = some "http://u")
    ∧ (YtCfg.dflt.video_codec = "h264")
    ∧ (0 < YtCfg.dflt.num_retries)
    ∧ ((download_yt_video Eok "abcdefghijk" 0 10 "data" "ffmpeg" "ffprobe"
          YtCfg.dflt).ret
        = some (some (video_filepath "data" "abcdefghijk" 0 10
              YtCfg.dflt.video_format),
            some (audio_filepath "data" "abcdefghijk" 0 10
              YtCfg.dflt.audio_format))
       ∧ (download_yt_video Eok "abcdefghijk" 0 10 "data" "ffmpeg"
            "ffprobe" YtCfg.dflt).raised = none
       ∧ DEv.ff (videowithaudio_filepath "data" "abcdefghijk" 0 10
            YtCfg.dflt.video_format)
          (Ev.invoke (ffmpegArgv "ffmpeg" mux_input_args
            (expandInputs (InputPath.multi
              [video_filepath "data" "abcdefghijk" 0 10
                YtCfg.dflt.video_format,
               audio_filepath "data" "abcdefghijk" 0 10
                YtCfg.dflt.audio_format]))
            (mux_output_args YtCfg.dflt)
            (videowithaudio_filepath "data" "abcdefghijk" 0 10
              YtCfg.dflt.video_format)
            "error"))
          ∈ (download_yt_video Eok "abcdefghijk" 0 10 "data" "ffmpeg"
              "ffprobe" YtCfg.dflt).evs) :=
  ⟨by decide, rfl, rfl, by decide,
    C9_mux_always_issued_and_pair_returned Eok "abcdefghijk" 0 10 "data"
      "ffmpeg" "ffprobe" "http://u" YtCfg.dflt (by decide) rfl rfl
      (by decide)⟩

/-- C7 (code evidence): `download_subset_videos` raises `TypeError` at its
loop header on every input, because `csv.reader(f)` is an iterator and the
header-skipping slice `subset_data[1:]` is not supported on it.  No row is
ever examined: no job is logged as skipped and none is submitted, whatever
the filesystem contents — so the claimed skip-all re-run behaviour never
happens, not because jobs are submitted, but because the call dies first. -/
theorem C7_scheduler_raises_typeError (rows : List (List String))
    (fs : String → Bool) (subset_path data_dir : String) (num_workers : ℕ)
    (cfg : YtCfg) :
    download_subset_videos rows fs subset_path data_dir num_workers cfg
      = { evs := [SEv.logStartingJobs (get_subset_name subset_path),
            SEv.poolCreated num_workers, SEv.poolClosed, SEv.poolJoined],
          raised := some PyExn.typeError } := rfl

/-- C8 (code evidence): on a concrete subset file with a header row and one
well-formed data row (with all outputs present), the call raises `TypeError`
without reading any row: the header-skipping slice itself fails.  The
(unreachable) loop body would have computed the start offset as
`hour×3600 + minute×60 + second` and the end offset as `start + 10`
(`row_ts_start`, `row_ts_end`): for the row `0:1:59` these are 119 and
129. -/
theorem C8_header_never_skipped_rows_never_processed :
    download_subset_videos subsetRowsEx (fun _ => true) "meta.csv" "data"
        6 YtCfg.dflt
      = { evs := [SEv.logStartingJobs (get_subset_name "meta.csv"),
            SEv.poolCreated 6, SEv.poolClosed, SEv.poolJoined],
          raised := some PyExn.typeError }
    ∧ row_ts_start 0 1 59 = 119
    ∧ row_ts_end (row_ts_start 0 1 59) = 129 := by
  refine ⟨rfl, ?_, ?_⟩ <;> norm_num [row_ts_start, row_ts_end]
